import Mathlib

/-!
Shallow embedding of the AzureBlobGPT agent sources:
src/blob_agent.py (the blob-storage tool plugin and the interactive chat
loop) and src/test_openai.py (connection-test diagnostics).

External collaborators (the Azure Blob SDK, pandas, the Semantic Kernel
model provider) enter as explicit outcome parameters: a raised Python
exception is an Except.error value carrying the text str(e).
-/

/-- Python truthiness of an optional environment string:
None and the empty string are falsy. -/
def pyTruthy : Option String → Bool
  | none => false
  | some s => !(s == "")

/-- Rendering of an optional value inside a Python f-string:
None renders as the text None, a string renders as itself. -/
def pyShow : Option String → String
  | none => "None"
  | some s => s

/-- Python str.lower on the ASCII range: each code point is lowercased
independently. -/
def pyLower (s : String) : String := String.mk (s.data.map Char.toLower)

/-- Python slicing s[:n] on code points. -/
def pySlice (n : Nat) (s : String) : String := String.mk (s.data.take n)

/-- The string s begins with the text p. -/
abbrev beginsWith (p s : String) : Prop := p.data <+: s.data

/-- The string s holds the text needle as a contiguous substring. -/
abbrev textContains (needle s : String) : Prop := needle.data <:+: s.data

/-- Model of the storage backend boundary: the blobs of the configured
container as an association list of blob name to blob bytes. -/
structure ContainerState where
  blobs : List (String × String)

/-- The names of the blobs, in listing order. -/
def ContainerState.blobNames (c : ContainerState) : List String :=
  c.blobs.map Prod.fst

/-- Model of BlobClient.exists() against the container state. -/
def ContainerState.blobExists (c : ContainerState) (blob_name : String) : Bool :=
  c.blobs.any (fun p => p.1 == blob_name)

/-- Model of download_blob().readall(): the stored bytes, when present. -/
def ContainerState.download (c : ContainerState) (blob_name : String) : Option String :=
  (c.blobs.find? (fun p => p.1 == blob_name)).map Prod.snd

/-- Model of a pandas DataFrame: column labels and data rows. -/
structure DataFrame where
  columns : List String
  rows : List (List String)

/-- pandas df.head n: the frame restricted to the first n data rows. -/
def DataFrame.head (df : DataFrame) (n : Nat) : DataFrame :=
  { columns := df.columns, rows := df.rows.take n }

/-- One markdown table line. -/
def markdownRow (cells : List String) : String :=
  "| " ++ String.intercalate (" | ") cells ++ " |"

/-- Model of pandas DataFrame.to_markdown as lines: a header line, a
separator line, then one line per data row. -/
def DataFrame.to_markdown_lines (df : DataFrame) : List String :=
  markdownRow df.columns
    :: markdownRow (df.columns.map (fun _ => "---"))
    :: df.rows.map markdownRow

/-- Model of pandas DataFrame.to_markdown. -/
def DataFrame.to_markdown (df : DataFrame) : String :=
  String.intercalate ("\n") df.to_markdown_lines

/-- Outcomes of the external calls made inside the try-block of
read_csv_blob: BlobClient.exists(), download_blob().readall(), and
pd.read_csv. An Except.error carries the raised exception text str(e). -/
structure BlobEffects where
  existsResult : Except String Bool
  downloadResult : Except String String
  parseResult : String → Except String DataFrame

/-- The message returned when the blob is absent (blob_agent.py line 57). -/
def notExistMsg (container_name blob_name : String) : String :=
  "Error: Blob \x27" ++ blob_name ++ "\x27 does not exist in container \x27"
    ++ container_name ++ "\x27."

/-- The try-block body of BlobStoragePlugin.read_csv_blob
(blob_agent.py lines 53-63): any exception raised by an external call
short-circuits as Except.error. -/
def read_csv_blob_body (container_name blob_name : String) (eff : BlobEffects) :
    Except String String :=
  match eff.existsResult with
  | Except.error e => Except.error e
  | Except.ok ex =>
    if !ex then Except.ok (notExistMsg container_name blob_name)
    else
      match eff.downloadResult with
      | Except.error e => Except.error e
      | Except.ok blob_data =>
        match eff.parseResult blob_data with
        | Except.error e => Except.error e
        | Except.ok df => Except.ok ((df.head 10).to_markdown)

/-- BlobStoragePlugin.read_csv_blob (blob_agent.py lines 45-65): the
try/except wrapper around the body. -/
def read_csv_blob (container_name blob_name : String) (eff : BlobEffects) : String :=
  match read_csv_blob_body container_name blob_name eff with
  | Except.ok s => s
  | Except.error e => "Error reading blob: " ++ e

/-- The effect outcomes produced by an honest storage backend for a given
container state, with the pandas parse passed through. -/
def containerEffects (c : ContainerState) (parse : String → Except String DataFrame)
    (blob_name : String) : BlobEffects :=
  { existsResult := Except.ok (c.blobExists blob_name)
    downloadResult :=
      match c.download blob_name with
      | some data => Except.ok data
      | none => Except.error ("The specified blob does not exist.")
    parseResult := parse }

/-- BlobStoragePlugin.list_blobs (blob_agent.py lines 71-80), with the
outcome of the container_client.list_blobs() listing passed explicitly. -/
def list_blobs (listResult : Except String (List String)) : String :=
  match listResult with
  | Except.ok blob_names =>
    if blob_names = [] then "No blobs found."
    else String.intercalate (", ") blob_names
  | Except.error e => "Error listing blobs: " ++ e

/-- Transcript entries: the message roles of semantic_kernel ChatHistory. -/
inductive ChatMessage where
  | system (text : String)
  | user (text : String)
  | assistant (text : String)
  | tool (text : String)

/-- The textual content of a message (the .content attribute). -/
def ChatMessage.content : ChatMessage → String
  | ChatMessage.system t => t
  | ChatMessage.user t => t
  | ChatMessage.assistant t => t
  | ChatMessage.tool t => t

/-- Model of semantic_kernel ChatHistory: an ordered message list mutated
only by appending. -/
structure ChatHistory where
  messages : List ChatMessage

/-- One append (add_system_message, add_user_message, add_message). -/
def ChatHistory.add (h : ChatHistory) (m : ChatMessage) : ChatHistory :=
  { messages := h.messages ++ [m] }

/-- A sequence of appends, in order. -/
def ChatHistory.addAll (h : ChatHistory) (ms : List ChatMessage) : ChatHistory :=
  ms.foldl ChatHistory.add h

/-- The ordered sequence of all entries, as transmitted to the provider. -/
def ChatHistory.snapshot (h : ChatHistory) : List ChatMessage :=
  h.messages

/-- One call to chat_completion.get_chat_message_content with auto function
calling: the framework may append tool-result entries to the history during
the call, then either returns the final assistant message or raises. -/
structure ProviderOutcome where
  appended : List ChatMessage
  final : Except String ChatMessage

/-- The history and the printed lines produced by one user turn. -/
structure TurnResult where
  history : ChatHistory
  printed : List String

/-- One user turn of the chat loop body after the exit check
(blob_agent.py lines 126-146): append the user message, run the provider
call, and either print the agent reply and append it, or print a single
error line and keep the history as accumulated. -/
def chatTurn (history : ChatHistory) (user_input : String) (o : ProviderOutcome) :
    TurnResult :=
  let h1 := history.add (ChatMessage.user user_input)
  let h2 := h1.addAll o.appended
  match o.final with
  | Except.ok result =>
    { history := h2.add result, printed := ["Agent: " ++ result.content ++ "\n"] }
  | Except.error e =>
    { history := h2, printed := ["Error during chat: " ++ e] }

/-- Outcome of one REPL iteration: the loop breaks and the process
terminates with the given exit code, or the loop continues after a turn. -/
inductive ReplAction where
  | exited (code : Nat)
  | continued (turn : TurnResult)

/-- One iteration of the while-True REPL (blob_agent.py lines 121-146):
an exit or quit line, compared after str.lower, breaks out of the loop and
the process then terminates normally with exit code 0; any other line is
a user turn. -/
def replStep (history : ChatHistory) (line : String) (o : ProviderOutcome) : ReplAction :=
  if pyLower line = "exit" ∨ pyLower line = "quit" then ReplAction.exited 0
  else ReplAction.continued (chatTurn history line o)

/-- The process environment: a mapping from variable name to value. -/
structure Env where
  vars : String → Option String

/-- os.getenv. -/
def getenv (env : Env) (key : String) : Option String := env.vars key

/-- BlobStoragePlugin init (blob_agent.py lines 27-39): raises ValueError
when a storage credential is missing or empty; otherwise the outcome of the
BlobServiceClient construction decides. -/
def pluginInit (env : Env) (clientInit : Except String Unit) : Except String Unit :=
  if !(pyTruthy (getenv env ("AZURE_STORAGE_ACCOUNT_NAME"))
      && pyTruthy (getenv env ("AZURE_STORAGE_ACCOUNT_KEY"))
      && pyTruthy (getenv env ("AZURE_STORAGE_CONTAINER_NAME"))) then
    Except.error ("Azure Blob Storage credentials are missing in .env file.")
  else clientInit

/-- Whether startup reaches the interactive shell or returns first. -/
inductive StartupResult where
  | exitBeforeShell (msg : String)
  | shellStarted

/-- Startup of main() before the chat loop (blob_agent.py lines 87-118).
The api version is the hardcoded literal 2025-01-01-preview (line 102);
no environment variable is consulted for it. -/
def mainStartup (env : Env) (clientInit : Except String Unit) : StartupResult :=
  if !(pyTruthy (getenv env ("AZURE_OPENAI_DEPLOYMENT_NAME"))
      && pyTruthy (getenv env ("AZURE_OPENAI_ENDPOINT"))
      && pyTruthy (getenv env ("AZURE_OPENAI_API_KEY"))) then
    StartupResult.exitBeforeShell ("Missing Azure OpenAI credentials in .env file. Please configure them.")
  else
    match pluginInit env clientInit with
    | Except.error e =>
      StartupResult.exitBeforeShell ("Failed to initialize BlobStoragePlugin: " ++ e)
    | Except.ok _ => StartupResult.shellStarted

/-- The API-key diagnostic line printed by test_openai.py line 17:
at most the first five characters of the key are shown. -/
def apiKeyLine (api_key : Option String) : String :=
  if pyTruthy api_key then "API Key: " ++ pySlice 5 (pyShow api_key) ++ "..."
  else "API Key: None"

/-- The diagnostic lines printed by test_openai.py main() lines 9-17. -/
def diagnosticOutput (endpoint deployment_name api_key : Option String) : List String :=
  ["Testing Azure OpenAI Connection...",
   "Endpoint: " ++ pyShow endpoint,
   "Deployment: " ++ pyShow deployment_name,
   apiKeyLine api_key]

/-- A fixed environment holding all six variables the program reads, and
nothing else; in particular no api-version variable of any name. -/
def env6 : Env :=
  ⟨fun key =>
    if key = "AZURE_OPENAI_DEPLOYMENT_NAME" then some ("gpt-4o")
    else if key = "AZURE_OPENAI_ENDPOINT" then some ("https://example.openai.azure.com")
    else if key = "AZURE_OPENAI_API_KEY" then some ("secret")
    else if key = "AZURE_STORAGE_ACCOUNT_NAME" then some ("acct")
    else if key = "AZURE_STORAGE_ACCOUNT_KEY" then some ("key1")
    else if key = "AZURE_STORAGE_CONTAINER_NAME" then some ("data")
    else none⟩

/-! Helper lemmas. -/

theorem ChatHistory.addAll_messages (h : ChatHistory) (ms : List ChatMessage) :
    (ChatHistory.addAll h ms).messages = h.messages ++ ms := by
  induction ms generalizing h with
  | nil => simp [ChatHistory.addAll]
  | cons m ms ih =>
    show (ChatHistory.addAll (h.add m) ms).messages = _
    rw [ih]
    simp [ChatHistory.add]

theorem beginsWith_append_left (p a b : String) (h : beginsWith p a) :
    beginsWith p (a ++ b) := by
  obtain ⟨t, ht⟩ := h
  exact ⟨t ++ b.data, by rw [String.data_append, ← ht, List.append_assoc]⟩

theorem textContains_append_left (needle a b : String) (h : textContains needle a) :
    textContains needle (a ++ b) := by
  obtain ⟨s, t, hst⟩ := h
  refine ⟨s, t ++ b.data, ?_⟩
  rw [String.data_append, ← hst]
  simp [List.append_assoc]

theorem textContains_append_right (needle a b : String) (h : textContains needle b) :
    textContains needle (a ++ b) := by
  obtain ⟨s, t, hst⟩ := h
  refine ⟨a.data ++ s, t, ?_⟩
  rw [String.data_append, ← hst]
  simp [List.append_assoc]

theorem blobExists_of_download (c : ContainerState) (blob_name data : String)
    (h : c.download blob_name = some data) : c.blobExists blob_name = true := by
  unfold ContainerState.download at h
  unfold ContainerState.blobExists
  cases hf : c.blobs.find? (fun p => p.1 == blob_name) with
  | none => rw [hf] at h; simp at h
  | some pair =>
    rw [List.any_eq_true]
    have hmem : pair ∈ c.blobs := List.mem_of_find?_eq_some hf
    have hpred := List.find?_some hf
    exact ⟨pair, hmem, hpred⟩

theorem pySlice5_empty_iff (s : String) : pySlice 5 s = "" ↔ s = "" := by
  cases s with
  | mk data =>
    cases data with
    | nil => simp [pySlice]
    | cons c cs =>
      simp only [pySlice, String.ext_iff]
      simp

/-! Claim theorems. -/

/-- C1 (corrected): a failure raised inside the body of read_csv_blob is
caught and surfaces as the string Error reading blob: str(e), and a failure
raised inside list_blobs surfaces as Error listing blobs: str(e); both
begin with the text Error (though not with the exact text Error:), and the
tool invocation returns a string rather than propagating the exception, so
the turn is not aborted. -/
theorem claim_C1 (container_name blob_name : String) (eff : BlobEffects) (e eL : String)
    (hbody : read_csv_blob_body container_name blob_name eff = Except.error e) :
    read_csv_blob container_name blob_name eff = "Error reading blob: " ++ e ∧
    beginsWith ("Error") (read_csv_blob container_name blob_name eff) ∧
    list_blobs (Except.error eL) = "Error listing blobs: " ++ eL ∧
    beginsWith ("Error") (list_blobs (Except.error eL)) := by
  refine ⟨?_, ?_, rfl, ?_⟩
  · simp [read_csv_blob, hbody]
  · simp only [read_csv_blob, hbody]
    exact beginsWith_append_left ("Error") ("Error reading blob: ") e (by decide)
  · exact beginsWith_append_left ("Error") ("Error listing blobs: ") eL (by decide)

/-- C1 witness: a concrete raised failure inside each tool body. -/
theorem claim_C1_witness :
    read_csv_blob ("data") ("a.csv")
        ⟨Except.error ("boom"), Except.ok (""), fun _ => Except.error ("x")⟩
      = "Error reading blob: " ++ "boom" ∧
    beginsWith ("Error")
      (read_csv_blob ("data") ("a.csv")
        ⟨Except.error ("boom"), Except.ok (""), fun _ => Except.error ("x")⟩) ∧
    list_blobs (Except.error ("socket timeout")) = "Error listing blobs: " ++ "socket timeout" ∧
    beginsWith ("Error") (list_blobs (Except.error ("socket timeout"))) :=
  claim_C1 ("data") ("a.csv")
    ⟨Except.error ("boom"), Except.ok (""), fun _ => Except.error ("x")⟩
    ("boom") ("socket timeout") rfl

/-- C1 counterexample: the exception raised by BlobClient.exists() is
caught, but the returned text Error reading blob: boom does not begin with
the exact text Error: claimed by the spec. -/
theorem claim_C1_counterexample :
    read_csv_blob_body ("data") ("a.csv")
        ⟨Except.error ("boom"), Except.ok (""), fun _ => Except.error ("x")⟩
      = Except.error ("boom") ∧
    ¬ beginsWith ("Error:")
        (read_csv_blob ("data") ("a.csv")
          ⟨Except.error ("boom"), Except.ok (""), fun _ => Except.error ("x")⟩) :=
  ⟨rfl, by decide⟩

/-- C2 (confirmed): for every container state in which the blob name does
not exist, read_csv_blob returns the not-exists message, which begins with
Error: and holds the text does not exist. -/
theorem claim_C2 (c : ContainerState) (container_name blob_name : String)
    (parse : String → Except String DataFrame)
    (hne : c.blobExists blob_name = false) :
    read_csv_blob container_name blob_name (containerEffects c parse blob_name)
      = notExistMsg container_name blob_name ∧
    beginsWith ("Error:") (notExistMsg container_name blob_name) ∧
    textContains ("does not exist") (notExistMsg container_name blob_name) := by
  refine ⟨?_, ?_, ?_⟩
  · simp [read_csv_blob, read_csv_blob_body, containerEffects, hne]
  · unfold notExistMsg
    exact beginsWith_append_left _ _ _ (beginsWith_append_left _ _ _
      (beginsWith_append_left _ _ _ (beginsWith_append_left _ _ _ (by decide))))
  · unfold notExistMsg
    exact textContains_append_left _ _ _ (textContains_append_left _ _ _
      (textContains_append_right _ _ _ (by decide)))

/-- C2 witness: an empty container and the blob name missing.csv. -/
theorem claim_C2_witness :
    read_csv_blob ("data") ("missing.csv")
        (containerEffects ⟨[]⟩ (fun _ => Except.error ("nope")) ("missing.csv"))
      = notExistMsg ("data") ("missing.csv") ∧
    beginsWith ("Error:") (notExistMsg ("data") ("missing.csv")) ∧
    textContains ("does not exist") (notExistMsg ("data") ("missing.csv")) :=
  claim_C2 ⟨[]⟩ ("data") ("missing.csv") (fun _ => Except.error ("nope")) rfl

/-- C3 (corrected): list_blobs joins the blob names with a comma and a
space when the container is nonempty and returns No blobs found. when the
container is empty; the converse of the latter fails, see the
counterexample. -/
theorem claim_C3 (c : ContainerState) :
    (c.blobNames = [] → list_blobs (Except.ok c.blobNames) = "No blobs found.") ∧
    (c.blobNames ≠ [] →
      list_blobs (Except.ok c.blobNames) = String.intercalate (", ") c.blobNames) := by
  constructor
  · intro h; simp [list_blobs, h]
  · intro h; simp [list_blobs, h]

/-- C3 witness: the two example scenarios of the spec. -/
theorem claim_C3_witness :
    list_blobs (Except.ok (ContainerState.blobNames ⟨[]⟩)) = "No blobs found." ∧
    list_blobs (Except.ok (ContainerState.blobNames ⟨[("a.csv", "1"), ("b.csv", "2")]⟩))
      = "a.csv, b.csv" := by
  refine ⟨(claim_C3 ⟨[]⟩).1 rfl, ?_⟩
  rw [(claim_C3 ⟨[("a.csv", "1"), ("b.csv", "2")]⟩).2 (by decide)]
  rfl

/-- C3 counterexample: a container whose single blob is literally named
No blobs found. is nonempty, yet list_blobs returns the literal string
No blobs found., so the exactly-when direction of the claim fails. -/
theorem claim_C3_counterexample :
    list_blobs (Except.ok (ContainerState.blobNames ⟨[("No blobs found.", "")]⟩))
      = "No blobs found." ∧
    ContainerState.blobNames ⟨[("No blobs found.", "")]⟩ ≠ [] :=
  ⟨rfl, by decide⟩

/-- C4 (confirmed): for every stored blob whose bytes parse successfully,
read_csv_blob returns the markdown rendering of the frame restricted to
the first 10 data rows: the rendered data lines are exactly the first 10
rows, there are at most 10 of them, and they are an initial segment of the
parsed rows however many rows the blob holds. -/
theorem claim_C4 (c : ContainerState) (container_name blob_name data : String)
    (parse : String → Except String DataFrame) (df : DataFrame)
    (hdl : c.download blob_name = some data) (hp : parse data = Except.ok df) :
    read_csv_blob container_name blob_name (containerEffects c parse blob_name)
      = (df.head 10).to_markdown ∧
    (df.head 10).rows = df.rows.take 10 ∧
    (df.head 10).rows.length ≤ 10 ∧
    df.rows.take 10 ++ df.rows.drop 10 = df.rows ∧
    (df.head 10).to_markdown_lines.drop 2 = (df.rows.take 10).map markdownRow := by
  have hex := blobExists_of_download c blob_name data hdl
  refine ⟨?_, rfl, ?_, List.take_append_drop 10 df.rows, rfl⟩
  · simp [read_csv_blob, read_csv_blob_body, containerEffects, hex, hdl, hp]
  · show (df.rows.take 10).length ≤ 10
    rw [List.length_take]
    exact min_le_left _ _

/-- C4 witness: a blob parsing to a 12-row frame renders its first 10
rows only. -/
theorem claim_C4_witness :
    read_csv_blob ("data") ("a.csv")
        (containerEffects ⟨[("a.csv", "csv")]⟩
          (fun _ => Except.ok ⟨["h1", "h2"], List.replicate 12 (["x", "y"])⟩) ("a.csv"))
      = ((DataFrame.mk ["h1", "h2"] (List.replicate 12 (["x", "y"]))).head 10).to_markdown :=
  (claim_C4 ⟨[("a.csv", "csv")]⟩ ("data") ("a.csv") ("csv")
    (fun _ => Except.ok ⟨["h1", "h2"], List.replicate 12 (["x", "y"])⟩)
    ⟨["h1", "h2"], List.replicate 12 (["x", "y"])⟩ rfl rfl).1

/-- C5 (corrected): startup is fatal when any of the three Azure OpenAI
variables or any of the three storage credentials the code reads is
missing; a message is printed and the function returns before the shell.
The api version is hardcoded, so it cannot be missing, see the
counterexample. -/
theorem claim_C5 (env : Env) (clientInit : Except String Unit)
    (h : getenv env ("AZURE_OPENAI_DEPLOYMENT_NAME") = none
       ∨ getenv env ("AZURE_OPENAI_ENDPOINT") = none
       ∨ getenv env ("AZURE_OPENAI_API_KEY") = none
       ∨ getenv env ("AZURE_STORAGE_ACCOUNT_NAME") = none
       ∨ getenv env ("AZURE_STORAGE_ACCOUNT_KEY") = none
       ∨ getenv env ("AZURE_STORAGE_CONTAINER_NAME") = none) :
    mainStartup env clientInit
        = StartupResult.exitBeforeShell
            ("Missing Azure OpenAI credentials in .env file. Please configure them.")
      ∨ mainStartup env clientInit
        = StartupResult.exitBeforeShell
            ("Failed to initialize BlobStoragePlugin: "
              ++ "Azure Blob Storage credentials are missing in .env file.") := by
  unfold mainStartup pluginInit
  rcases h with h | h | h | h | h | h
  · left; rw [h]; simp [pyTruthy]
  · left; rw [h]; simp [pyTruthy]
  · left; rw [h]; simp [pyTruthy]
  all_goals
    cases hcond : (pyTruthy (getenv env ("AZURE_OPENAI_DEPLOYMENT_NAME"))
        && pyTruthy (getenv env ("AZURE_OPENAI_ENDPOINT"))
        && pyTruthy (getenv env ("AZURE_OPENAI_API_KEY"))) with
    | false => left; simp [hcond]
    | true => right; rw [h]; simp [hcond, pyTruthy]

/-- C5 witness: an entirely empty environment exits before the shell. -/
theorem claim_C5_witness :
    mainStartup ⟨fun _ => none⟩ (Except.ok ())
        = StartupResult.exitBeforeShell
            ("Missing Azure OpenAI credentials in .env file. Please configure them.")
      ∨ mainStartup ⟨fun _ => none⟩ (Except.ok ())
        = StartupResult.exitBeforeShell
            ("Failed to initialize BlobStoragePlugin: "
              ++ "Azure Blob Storage credentials are missing in .env file.") :=
  claim_C5 ⟨fun _ => none⟩ (Except.ok ()) (Or.inl rfl)

/-- C5 counterexample: with the three Azure OpenAI variables and the three
storage credentials set but no api-version variable of any name present,
startup still reaches the shell, so a missing api version is not a fatal
startup error. -/
theorem claim_C5_counterexample :
    getenv env6 ("AZURE_OPENAI_API_VERSION") = none ∧
    mainStartup env6 (Except.ok ()) = StartupResult.shellStarted :=
  ⟨rfl, rfl⟩

/-- C6 (confirmed): when the provider call raises, the turn prints the
single line Error during chat: str(e), the history keeps everything
accumulated so far, the just-appended user message and any tool results
the framework appended included, and the loop continues with that turn
rather than aborting. -/
theorem claim_C6 (h : ChatHistory) (u : String) (o : ProviderOutcome) (e : String)
    (hf : o.final = Except.error e)
    (hx : ¬ (pyLower u = "exit" ∨ pyLower u = "quit")) :
    (chatTurn h u o).printed = ["Error during chat: " ++ e] ∧
    (chatTurn h u o).history.snapshot = h.snapshot ++ (ChatMessage.user u :: o.appended) ∧
    replStep h u o = ReplAction.continued (chatTurn h u o) := by
  refine ⟨?_, ?_, ?_⟩
  · simp [chatTurn, hf]
  · simp [chatTurn, hf, ChatHistory.snapshot, ChatHistory.addAll_messages, ChatHistory.add]
  · simp [replStep, hx]

/-- C6 witness: a concrete failing provider call on a fresh history. -/
theorem claim_C6_witness :
    (chatTurn ⟨[]⟩ ("hi") ⟨[ChatMessage.tool ("obs")], Except.error ("net down")⟩).printed
      = ["Error during chat: " ++ "net down"] ∧
    (chatTurn ⟨[]⟩ ("hi") ⟨[ChatMessage.tool ("obs")], Except.error ("net down")⟩).history.snapshot
      = ChatHistory.snapshot ⟨[]⟩ ++ (ChatMessage.user ("hi") :: [ChatMessage.tool ("obs")]) ∧
    replStep ⟨[]⟩ ("hi") ⟨[ChatMessage.tool ("obs")], Except.error ("net down")⟩
      = ReplAction.continued
          (chatTurn ⟨[]⟩ ("hi") ⟨[ChatMessage.tool ("obs")], Except.error ("net down")⟩) :=
  claim_C6 ⟨[]⟩ ("hi") ⟨[ChatMessage.tool ("obs")], Except.error ("net down")⟩
    ("net down") rfl (by decide)

/-- C7 (confirmed): the transcript is append-only: N appends onto the
empty history snapshot to exactly those N entries in append order, appends
never edit or drop the entries already present, and every operation of
the chat loop either leaves the history untouched (exit) or extends it. -/
theorem claim_C7 (ms : List ChatMessage) (h : ChatHistory) (u : String) (o : ProviderOutcome) :
    (ChatHistory.addAll ⟨[]⟩ ms).snapshot = ms ∧
    (ChatHistory.addAll h ms).snapshot = h.snapshot ++ ms ∧
    (∃ s, (chatTurn h u o).history.snapshot = h.snapshot ++ s) ∧
    (replStep h u o = ReplAction.exited 0 ∨
      replStep h u o = ReplAction.continued (chatTurn h u o)) := by
  refine ⟨?_, ?_, ?_, ?_⟩
  · simp [ChatHistory.snapshot, ChatHistory.addAll_messages]
  · simp [ChatHistory.snapshot, ChatHistory.addAll_messages]
  · cases hfin : o.final with
    | ok m =>
      refine ⟨ChatMessage.user u :: (o.appended ++ [m]), ?_⟩
      simp [chatTurn, hfin, ChatHistory.snapshot, ChatHistory.addAll_messages, ChatHistory.add]
    | error e =>
      refine ⟨ChatMessage.user u :: o.appended, ?_⟩
      simp [chatTurn, hfin, ChatHistory.snapshot, ChatHistory.addAll_messages, ChatHistory.add]
  · unfold replStep
    by_cases hc : (pyLower u = "exit" ∨ pyLower u = "quit")
    · left; rw [if_pos hc]
    · right; rw [if_neg hc]

/-- C8 (confirmed): one REPL iteration breaks out with exit code 0 exactly
when the lowercased line is exit or quit, and every other line is handled
as a user turn. -/
theorem claim_C8 (h : ChatHistory) (line : String) (o : ProviderOutcome) :
    (replStep h line o = ReplAction.exited 0 ↔
      (pyLower line = "exit" ∨ pyLower line = "quit")) ∧
    (¬ (pyLower line = "exit" ∨ pyLower line = "quit") →
      replStep h line o = ReplAction.continued (chatTurn h line o)) := by
  constructor
  · constructor
    · intro hr
      by_contra hc
      rw [replStep, if_neg hc] at hr
      exact ReplAction.noConfusion hr
    · intro hc
      rw [replStep, if_pos hc]
  · intro hc
    rw [replStep, if_neg hc]

/-- C8 witness: the line QUIT exits with code 0 and the line hello is a
user turn. -/
theorem claim_C8_witness :
    replStep ⟨[]⟩ ("QUIT") ⟨[], Except.ok (ChatMessage.assistant ("x"))⟩
      = ReplAction.exited 0 ∧
    replStep ⟨[]⟩ ("hello") ⟨[], Except.ok (ChatMessage.assistant ("x"))⟩
      = ReplAction.continued
          (chatTurn ⟨[]⟩ ("hello") ⟨[], Except.ok (ChatMessage.assistant ("x"))⟩) :=
  ⟨(claim_C8 ⟨[]⟩ ("QUIT") ⟨[], Except.ok (ChatMessage.assistant ("x"))⟩).1.mpr
      (Or.inr (by decide)),
   (claim_C8 ⟨[]⟩ ("hello") ⟨[], Except.ok (ChatMessage.assistant ("x"))⟩).2 (by decide)⟩

/-- C9 (confirmed): list_blobs never propagates a listing failure: for
every raised exception it returns the string Error listing blobs: str(e),
which begins with Error listing blobs: and embeds the exception text. -/
theorem claim_C9 (e : String) :
    list_blobs (Except.error e) = "Error listing blobs: " ++ e ∧
    beginsWith ("Error listing blobs:") (list_blobs (Except.error e)) ∧
    textContains e (list_blobs (Except.error e)) := by
  refine ⟨rfl, ?_, ?_⟩
  · exact beginsWith_append_left ("Error listing blobs:") ("Error listing blobs: ") e (by decide)
  · exact textContains_append_right e ("Error listing blobs: ") e ⟨[], [], by simp⟩

/-- C10 (confirmed): the connection-test diagnostics depend only on the
first five characters of the API key: two set keys agreeing on their first
five characters produce identical output, and an unset key prints the line
API Key: None. -/
theorem claim_C10 (endpoint deployment_name : Option String) (k1 k2 : String)
    (h5 : pySlice 5 k1 = pySlice 5 k2) :
    diagnosticOutput endpoint deployment_name (some k1)
      = diagnosticOutput endpoint deployment_name (some k2) ∧
    apiKeyLine none = "API Key: None" := by
  refine ⟨?_, rfl⟩
  have hkey : apiKeyLine (some k1) = apiKeyLine (some k2) := by
    by_cases h1 : k1 = ""
    · have h2 : k2 = "" := (pySlice5_empty_iff k2).mp (by rw [← h5, h1]; decide)
      rw [h1, h2]
    · have h2 : ¬ k2 = "" :=
        fun hh => h1 ((pySlice5_empty_iff k1).mp (by rw [h5, hh]; decide))
      have b1 : (k1 == "") = false := by simp [h1]
      have b2 : (k2 == "") = false := by simp [h2]
      unfold apiKeyLine pyTruthy pyShow
      simp [b1, b2, h5]
  unfold diagnosticOutput
  rw [hkey]

/-- C10 witness: two keys differing only beyond the fifth character
produce identical diagnostics. -/
theorem claim_C10_witness :
    diagnosticOutput (some ("https://e")) (some ("gpt")) (some ("abcdeSECRET-ONE"))
      = diagnosticOutput (some ("https://e")) (some ("gpt")) (some ("abcdeSECRET-TWO")) :=
  (claim_C10 (some ("https://e")) (some ("gpt")) ("abcdeSECRET-ONE") ("abcdeSECRET-TWO")
    (by decide)).1
